import Mathlib

set_option maxRecDepth 100000

/-!
Shallow embedding of the `psemu-core` CPU emulator (`src/psemu/psemu-core/src/lib.rs`).

Machine words (`u32`) are modelled as `Nat`, with `% 2^32` written exactly where the
Rust code wraps (`wrapping_add`) or where a `u32` result would truncate (`<<`).
Rust panics (`expect`, `unwrap`, out-of-bounds `Vec` indexing, `todo!`) are modelled
by `Option`: `none` is an uncontrolled abort carrying no further state.  Fallible
bus calls (`Result<T, String>`) are modelled by `BusResult`, one constructor per
distinct `format!` error site in the source.  The BIOS byte buffer (`Vec<u8>`) is
modelled by `ByteVec`: a length plus an index function, with out-of-bounds reads
aborting exactly as Rust `Vec` indexing does.  The instruction-history strings are
diagnostic only; the trace is modelled by the list of raw executed words.
-/

/-- `const PROGRAM_COUNTER_RESET_VALUE: u32 = 0xbfc00000;` -/
def PROGRAM_COUNTER_RESET_VALUE : Nat := 0xbfc00000

/-- `struct AddressRange { starting_addr: u32, last_addr: u32 }` -/
structure AddressRange where
  starting_addr : Nat
  last_addr : Nat

/-- `BIOS_ADDR_RANGE`: `[0xbfc00000, 0xbfc00000 + 512*1024)` -/
def BIOS_ADDR_RANGE : AddressRange :=
  { starting_addr := 0xbfc00000, last_addr := 0xbfc00000 + 512 * 1024 }

/-- `MEM_CONTROL_ADDR_RANGE`: `[0x1f801000, 0x1f801004 + 32)` -/
def MEM_CONTROL_ADDR_RANGE : AddressRange :=
  { starting_addr := 0x1f801000, last_addr := 0x1f801004 + 32 }

/-- `RAM_SIZE_RANGE`: `[0x1f801060, 0x1f801060 + 4)` -/
def RAM_SIZE_RANGE : AddressRange :=
  { starting_addr := 0x1f801060, last_addr := 0x1f801060 + 4 }

/-- `CACHE_CONTROL_RANGE`: `[0xfffe0130, 0xfffe0130 + 4)` -/
def CACHE_CONTROL_RANGE : AddressRange :=
  { starting_addr := 0xfffe0130, last_addr := 0xfffe0130 + 4 }

/-- `enum PsemuCoreError` — the typed step-level fault, carrying the raw word. -/
inductive PsemuCoreError where
  | UnknownInstruction (w : Nat)
  | UnknownSecondaryOpInstruction (w : Nat)
deriving DecidableEq

/-- The distinct `format!` error sites of the bus (`Result<_, String>` in Rust). -/
inductive BusError where
  | notAligned (addr : Nat)
  | notInRange (addr : Nat)
  | badExpansion1Base (addr : Nat)
  | badExpansion2Base (addr : Nat)
deriving DecidableEq

/-- `Result<T, String>` of the bus calls, with structured errors. -/
inductive BusResult (α : Type) where
  | ok (val : α)
  | error (e : BusError)
deriving DecidableEq

/-- `enum Opcode` — primary opcode values (bits 31..26). -/
inductive Opcode where
  | Special                    -- 0
  | LoadUpperImmediate         -- 0b001111 = 15
  | OrImmediate                -- 0b001101 = 13
  | StoreWord                  -- 0b101011 = 43
  | AddImmediateUnsignedWord   -- 0b001001 = 9
  | Jump                       -- 0b000010 = 2
deriving DecidableEq

/-- `Opcode::from_u32` (derived `FromPrimitive`): `None` on an unmapped value. -/
def Opcode.fromU32 (n : Nat) : Option Opcode :=
  if n = 0 then some .Special
  else if n = 15 then some .LoadUpperImmediate
  else if n = 13 then some .OrImmediate
  else if n = 43 then some .StoreWord
  else if n = 9 then some .AddImmediateUnsignedWord
  else if n = 2 then some .Jump
  else none

/-- `enum SecondaryOpcode` — secondary opcode values (bits 5..0). -/
inductive SecondaryOpcode where
  | ShiftLeftLogical  -- 0
  | Or                -- 0b100101 = 37
deriving DecidableEq

/-- `SecondaryOpcode::from_u32` (derived `FromPrimitive`). -/
def SecondaryOpcode.fromU32 (n : Nat) : Option SecondaryOpcode :=
  if n = 0 then some .ShiftLeftLogical
  else if n = 37 then some .Or
  else none

/-- `Instruction::sop`: bits 31..26. -/
def Instruction.sop (w : Nat) : Option Opcode := Opcode.fromU32 (w >>> 26)

/-- `Instruction::secondary_opcode`: bits 5..0. -/
def Instruction.secondary_opcode (w : Nat) : Option SecondaryOpcode :=
  SecondaryOpcode.fromU32 (63 &&& w)

/-- `Instruction::gpr_rs`: bits 25..21. -/
def Instruction.gpr_rs (w : Nat) : Nat := 31 &&& (w >>> 21)

/-- `Instruction::base`: alias of `gpr_rs`. -/
def Instruction.base (w : Nat) : Nat := 31 &&& (w >>> 21)

/-- `Instruction::gpr_rt`: bits 20..16. -/
def Instruction.gpr_rt (w : Nat) : Nat := 31 &&& (w >>> 16)

/-- `Instruction::gpr_rd`: bits 15..11. -/
def Instruction.gpr_rd (w : Nat) : Nat := 31 &&& (w >>> 11)

/-- `Instruction::immediate`: bits 15..0. -/
def Instruction.immediate (w : Nat) : Nat := 0xFFFF &&& w

/-- `Instruction::offset`: alias of `immediate`. -/
def Instruction.offset (w : Nat) : Nat := 0xFFFF &&& w

/-- `Instruction::immediate_sign_extended`: the 16-bit immediate reinterpreted as
`i16` and widened to `u32` with sign propagation. -/
def Instruction.immediate_sign_extended (w : Nat) : Nat :=
  let v := Instruction.immediate w
  if v < 0x8000 then v else 0xFFFF0000 + v

/-- `Instruction::offset_sign_extended`: same body as `immediate_sign_extended`. -/
def Instruction.offset_sign_extended (w : Nat) : Nat :=
  let v := Instruction.immediate w
  if v < 0x8000 then v else 0xFFFF0000 + v

/-- `Instruction::sa`: bits 10..6 (shift amount). -/
def Instruction.sa (w : Nat) : Nat := 31 &&& (w >>> 6)

/-- `Instruction::instr_index`: bits 25..0 (jump target index). -/
def Instruction.instr_index (w : Nat) : Nat := 0x03FFFFFF &&& w

/-- Model of the Rust `Vec<u8>`: `size` is the length, `byte i` the i-th element
(meaningful for `i < size`).  Out-of-bounds indexing aborts, like Rust `Vec`. -/
structure ByteVec where
  size : Nat
  byte : Nat → Nat

/-- Checked indexing: `none` is the Rust index-out-of-bounds panic. -/
def ByteVec.get? (v : ByteVec) (i : Nat) : Option Nat :=
  if i < v.size then some (v.byte i) else none

/-- `struct Bios { data: Vec<u8> }` -/
structure Bios where
  data : ByteVec

/-- `Bios::load32`: little-endian word assembly from four bytes.  The Rust local
variable names (`msb` for `data[offset]`, `lsb` for `data[offset+3]`) are kept,
misleading as they are in the source. -/
def Bios.load32 (b : Bios) (offset : Nat) : Option Nat :=
  match b.data.get? offset, b.data.get? (offset + 1),
        b.data.get? (offset + 2), b.data.get? (offset + 3) with
  | some msb, some next_sb, some next_next_sb, some lsb =>
      some (lsb <<< 24 ||| next_next_sb <<< 16 ||| next_sb <<< 8 ||| msb)
  | _, _, _, _ => none

/-- `struct Interconnect { bios: Bios }` -/
structure Interconnect where
  bios : Bios

/-- `Interconnect::load32`.  Note the source's containment test is
`addr >= start || addr < last` (logical OR), reproduced verbatim; the
subtraction `addr - starting_addr` is `u32` wrapping subtraction. -/
def Interconnect.load32 (ic : Interconnect) (addr : Nat) : Option (BusResult Nat) :=
  if addr % 4 ≠ 0 then some (.error (.notAligned addr))
  else if BIOS_ADDR_RANGE.starting_addr ≤ addr ∨ addr < BIOS_ADDR_RANGE.last_addr then
    match ic.bios.load32 ((addr + 2 ^ 32 - BIOS_ADDR_RANGE.starting_addr) % 2 ^ 32) with
    | some w => some (.ok w)
    | none => none
  else some (.error (.notInRange addr))

/-- `Interconnect::store32`.  The final `else` branch is `todo!(...)` in the
source, i.e. a panic, modelled by `none`.  No branch writes any state. -/
def Interconnect.store32 (ic : Interconnect) (addr val : Nat) :
    Option (Interconnect × BusResult Unit) :=
  if addr % 4 ≠ 0 then some (ic, .error (.notAligned addr))
  else if MEM_CONTROL_ADDR_RANGE.starting_addr ≤ addr ∧ addr < MEM_CONTROL_ADDR_RANGE.last_addr then
    let offset := addr - MEM_CONTROL_ADDR_RANGE.starting_addr
    if offset = 0 ∧ val ≠ 0x1f000000 then some (ic, .error (.badExpansion1Base addr))
    else if offset = 4 ∧ val ≠ 0x1f802000 then some (ic, .error (.badExpansion2Base addr))
    else some (ic, .ok ())
  else if RAM_SIZE_RANGE.starting_addr ≤ addr ∧ addr < RAM_SIZE_RANGE.last_addr then
    some (ic, .ok ())
  else if CACHE_CONTROL_RANGE.starting_addr ≤ addr ∧ addr < CACHE_CONTROL_RANGE.last_addr then
    some (ic, .ok ())
  else none

/-- `struct Cpu`.  `instruction_history` keeps the raw executed words (the
attached strings are diagnostic rendering only). -/
structure Cpu where
  pc : Nat
  next_instruction : Nat
  registers : List Nat
  interconnect : Interconnect
  instruction_history : List Nat

/-- `Cpu::new`, with the BIOS byte buffer (read from disk in Rust) a parameter. -/
def Cpu.new (biosData : ByteVec) : Cpu :=
  { pc := PROGRAM_COUNTER_RESET_VALUE
    next_instruction := 0x00  -- NOP
    registers := (List.replicate 32 0xdeadbeef).set 0 0
    interconnect := { bios := { data := biosData } }
    instruction_history := [] }

/-- `Cpu::load32`: delegate to the interconnect. -/
def Cpu.load32 (cpu : Cpu) (addr : Nat) : Option (BusResult Nat) :=
  cpu.interconnect.load32 addr

/-- `Cpu::store32`: delegate to the interconnect (`&mut self`). -/
def Cpu.store32 (cpu : Cpu) (addr val : Nat) : Option (Cpu × BusResult Unit) :=
  (cpu.interconnect.store32 addr val).map
    (fun r => ({ cpu with interconnect := r.1 }, r.2))

/-- `Cpu::get_register`. -/
def Cpu.get_register (cpu : Cpu) (register_index : Nat) : Nat :=
  cpu.registers.getD register_index 0

/-- `Cpu::set_register`: write, then force `$zero` back to 0. -/
def Cpu.set_register (cpu : Cpu) (reg_idx val : Nat) : Cpu :=
  { cpu with registers := (cpu.registers.set reg_idx val).set 0 0 }

/-- `Cpu::op_lui`: `rt = imm << 16`. -/
def Cpu.op_lui (cpu : Cpu) (w : Nat) : Cpu :=
  cpu.set_register (Instruction.gpr_rt w) (Instruction.immediate w <<< 16)

/-- `Cpu::op_or`: `rd = get(rs) | get(rt)`. -/
def Cpu.op_or (cpu : Cpu) (w : Nat) : Cpu :=
  cpu.set_register (Instruction.gpr_rd w)
    (cpu.get_register (Instruction.gpr_rs w) ||| cpu.get_register (Instruction.gpr_rt w))

/-- `Cpu::op_ori`: `rt = get(rs) | imm`. -/
def Cpu.op_ori (cpu : Cpu) (w : Nat) : Cpu :=
  cpu.set_register (Instruction.gpr_rt w)
    (cpu.get_register (Instruction.gpr_rs w) ||| Instruction.immediate w)

/-- `Cpu::op_sw`: `memory[get(base)+offset] = get(rt)`.  The address is
`wrapping_add`; the store's `Result` is `.unwrap()`ed in Rust, so a bus error
(and the `todo!` branch) is a panic: `none`. -/
def Cpu.op_sw (cpu : Cpu) (w : Nat) : Option Cpu :=
  match cpu.store32
      ((cpu.get_register (Instruction.base w) + Instruction.offset_sign_extended w) % 2 ^ 32)
      (cpu.get_register (Instruction.gpr_rt w)) with
  | some (cpu', .ok _) => some cpu'
  | some (_, .error _) => none
  | none => none

/-- `Cpu::op_sll`: `rd = get(rt) << sa` (u32 truncation). -/
def Cpu.op_sll (cpu : Cpu) (w : Nat) : Cpu :=
  cpu.set_register (Instruction.gpr_rd w)
    ((cpu.get_register (Instruction.gpr_rt w) <<< Instruction.sa w) % 2 ^ 32)

/-- `Cpu::op_addiu`: `rt = get(rs) + imm`, 32-bit wrapping add. -/
def Cpu.op_addiu (cpu : Cpu) (w : Nat) : Cpu :=
  cpu.set_register (Instruction.gpr_rt w)
    ((cpu.get_register (Instruction.gpr_rs w) + Instruction.immediate_sign_extended w) % 2 ^ 32)

/-- `Cpu::op_jump`: `pc = (0xF0000000 & pc) | (instr_index << 2)`, reading the
pc as it stands when the handler runs (i.e. already incremented by the step). -/
def Cpu.op_jump (cpu : Cpu) (w : Nat) : Cpu :=
  { cpu with pc := (0xF0000000 &&& cpu.pc) ||| (Instruction.instr_index w <<< 2) }

/-- The `instruction_history.push(...)` done after each successful handler. -/
def Cpu.push_history (cpu : Cpu) (w : Nat) : Cpu :=
  { cpu with instruction_history := cpu.instruction_history ++ [w] }

/-- `Cpu::execute_special_op_instr`: dispatch on the secondary opcode;
`none` means no table entry. -/
def Cpu.execute_special_op_instr (cpu : Cpu) (w : Nat) : Option Cpu :=
  match Instruction.secondary_opcode w with
  | some .ShiftLeftLogical => some (cpu.op_sll w)
  | some .Or => some (cpu.op_or w)
  | none => none

/-- `Cpu::execute_instr`: dispatch on the primary opcode.  The result is
`none` on a panic (only possible through `op_sw`), otherwise the post-state
paired with the typed fault, `none` meaning `Ok(())`. -/
def Cpu.execute_instr (cpu : Cpu) (w : Nat) : Option (Cpu × Option PsemuCoreError) :=
  match Instruction.sop w with
  | some .Special =>
    match cpu.execute_special_op_instr w with
    | some cpu' => some (cpu'.push_history w, none)
    | none => some (cpu, some (.UnknownSecondaryOpInstruction w))
  | some .LoadUpperImmediate => some ((cpu.op_lui w).push_history w, none)
  | some .OrImmediate => some ((cpu.op_ori w).push_history w, none)
  | some .StoreWord =>
    match cpu.op_sw w with
    | some cpu' => some (cpu'.push_history w, none)
    | none => none
  | some .AddImmediateUnsignedWord => some ((cpu.op_addiu w).push_history w, none)
  | some .Jump => some ((cpu.op_jump w).push_history w, none)
  | none => some (cpu, some (.UnknownInstruction w))

/-- `Cpu::run_single_cycle`: fetch at `pc` (the fetch `Result` is `.expect`ed,
so a bus error there is a panic: `none`), queue the fetched word, advance
`pc` by a wrapping 4, then execute the previously queued instruction. -/
def Cpu.run_single_cycle (cpu : Cpu) : Option (Cpu × Option PsemuCoreError) :=
  match cpu.load32 cpu.pc with
  | some (.ok w) =>
      ({ cpu with next_instruction := w, pc := (cpu.pc + 4) % 2 ^ 32 }).execute_instr
        cpu.next_instruction
  | some (.error _) => none
  | none => none

/-- One fault-free step, as a driver loop observes it: `none` if the step
aborted or returned a typed fault. -/
def Cpu.stepOk (cpu : Cpu) : Option Cpu :=
  match cpu.run_single_cycle with
  | some (cpu', none) => some cpu'
  | _ => none

/-! ### Concrete states used by witnesses and counterexamples -/

/-- A 4-byte all-zero BIOS image (the word at offset 0 decodes to SLL, a NOP). -/
def bv4 : ByteVec := { size := 4, byte := fun _ => 0 }

/-- A 4 MiB + 4 all-zero BIOS image, large enough that fetches near the top of
the `0xbXXXXXXX` region stay inside the buffer. -/
def bvBig : ByteVec := { size := 0x400004, byte := fun _ => 0 }

/-- Interconnect over the 4-byte BIOS. -/
def icW : Interconnect := { bios := { data := bv4 } }

/-- Freshly constructed CPU over the 4-byte BIOS. -/
def cpu0 : Cpu := Cpu.new bv4

/-- CPU about to execute `SW` word `0xAC000001` (rs=0, rt=0, offset=1): the
store address is `0 + 1 = 1`, unaligned, so the store faults. -/
def cpuSW : Cpu := { Cpu.new bv4 with next_instruction := 0xAC000001 }

/-- CPU about to execute `J` word `0x08000000` (target index 0). -/
def cpuJ : Cpu := { Cpu.new bv4 with next_instruction := 0x08000000 }

/-- CPU at `pc = 0xbFFFFFFC` (top of the `0xb` nibble) about to execute a `J`
with target index 0, over the 4 MiB BIOS so the fetch succeeds. -/
def cpuHighJ : Cpu :=
  { Cpu.new bvBig with pc := 0xbFFFFFFC, next_instruction := 0x08000000 }

/-- CPU at the reset vector about to execute `J` word `0x0bf00000`
(target index `0x3f00000`, whose target address is the reset vector itself). -/
def cpuDelay : Cpu := { Cpu.new bv4 with next_instruction := 0x0bf00000 }

/-- CPU with register 3 preset to `0xFFFFFFFF`. -/
def cpuAdd : Cpu := (Cpu.new bv4).set_register 3 0xFFFFFFFF

/-! ### Shared helper lemmas -/

/-- Disjoint bitwise OR is addition: if `x` is zero below bit `n` and `y` lives
below bit `n`, then `x ||| y = x + y`. -/
lemma lor_eq_add_of_lt (n x y : Nat) (hx : x % 2 ^ n = 0) (hy : y < 2 ^ n) :
    x ||| y = x + y := by
  obtain ⟨q, rfl⟩ := Nat.dvd_of_mod_eq_zero hx
  exact (Nat.mul_add_lt_is_or hy q).symm

/-- The pc written by `op_jump` is always a multiple of 4: the mask clears
bits 0-1 and the target index is shifted left by 2. -/
lemma jump_pc_mod_four (pc t : Nat) : ((0xF0000000 &&& pc) ||| (t <<< 2)) % 4 = 0 := by
  have h4 : (4 : Nat) = 2 ^ 2 := by norm_num
  rw [h4]
  apply Nat.eq_of_testBit_eq
  intro i
  rw [Nat.testBit_mod_two_pow, Nat.zero_testBit]
  match i with
  | 0 =>
    have hm : (0xF0000000 : Nat).testBit 0 = false := by decide
    simp [Nat.testBit_or, Nat.testBit_and, Nat.testBit_shiftLeft, hm]
  | 1 =>
    have hm : (0xF0000000 : Nat).testBit 1 = false := by decide
    simp [Nat.testBit_or, Nat.testBit_and, Nat.testBit_shiftLeft, hm]
  | (i + 2) =>
    have h2 : ¬(i + 2 < 2) := by omega
    simp [h2]

/-- After any `set_register`, register 0 still reads as 0. -/
lemma get_register_zero_set_register (cpu : Cpu) (i v : Nat)
    (h : 0 < cpu.registers.length) : (cpu.set_register i v).get_register 0 = 0 := by
  show ((cpu.registers.set i v).set 0 0).getD 0 0 = 0
  rw [List.getD_eq_getElem?_getD, List.getElem?_set_self (by simpa using h)]
  rfl

/-- `set_register` preserves the register-file length. -/
lemma set_register_length (cpu : Cpu) (i v : Nat) :
    (cpu.set_register i v).registers.length = cpu.registers.length := by
  show ((cpu.registers.set i v).set 0 0).length = _
  simp

/-! ### C6 -/

/-- C6: for every register index i in [1,31] and every word v, `set_register i v`
followed by `get_register i` returns v; and `set_register 0 v` followed by
`get_register 0` returns 0 — writes to index 0 are a no-op for the reader. -/
theorem c6_register_roundtrip :
    (∀ (cpu : Cpu) (i v : Nat), cpu.registers.length = 32 → 1 ≤ i → i ≤ 31 →
      (cpu.set_register i v).get_register i = v)
    ∧ (∀ (cpu : Cpu) (v : Nat), cpu.registers.length = 32 →
      (cpu.set_register 0 v).get_register 0 = 0) := by
  constructor
  · intro cpu i v hlen h1 h31
    show ((cpu.registers.set i v).set 0 0).getD i 0 = v
    rw [List.getD_eq_getElem?_getD, List.getElem?_set_ne (by omega),
        List.getElem?_set_self (by omega)]
    rfl
  · intro cpu v hlen
    exact get_register_zero_set_register cpu 0 v (by omega)

/-- C6 witness: concrete round-trips on a freshly constructed CPU. -/
theorem c6_register_roundtrip_witness :
    (cpu0.set_register 5 0xabcd).get_register 5 = 0xabcd
    ∧ (cpu0.set_register 0 0x1234).get_register 0 = 0 :=
  ⟨c6_register_roundtrip.1 cpu0 5 0xabcd (by decide) (by decide) (by decide),
   c6_register_roundtrip.2 cpu0 0x1234 (by decide)⟩

/-! ### C8 -/

/-- C8: a word whose primary opcode has no table entry makes `execute_instr`
return the `UnknownInstruction` fault carrying the original word, leaving the
CPU unchanged; a Special word whose secondary opcode has no entry returns the
`UnknownSecondaryOpInstruction` fault likewise — never a silent no-op. -/
theorem c8_unknown_opcode_faults :
    (∀ (cpu : Cpu) (w : Nat), Opcode.fromU32 (w >>> 26) = none →
      cpu.execute_instr w = some (cpu, some (.UnknownInstruction w)))
    ∧ (∀ (cpu : Cpu) (w : Nat), w >>> 26 = 0 → SecondaryOpcode.fromU32 (63 &&& w) = none →
      cpu.execute_instr w = some (cpu, some (.UnknownSecondaryOpInstruction w))) := by
  constructor
  · intro cpu w h
    simp [Cpu.execute_instr, Instruction.sop, h]
  · intro cpu w h hsec
    simp [Cpu.execute_instr, Instruction.sop, h, Opcode.fromU32,
          Cpu.execute_special_op_instr, Instruction.secondary_opcode, hsec]

/-- C8 witness: `0xFFFFFFFF` (primary opcode 63, unmapped) and `0x00000004`
(Special with secondary opcode 4, unmapped) at concrete states. -/
theorem c8_unknown_opcode_faults_witness :
    cpu0.execute_instr 0xFFFFFFFF = some (cpu0, some (.UnknownInstruction 0xFFFFFFFF))
    ∧ cpu0.execute_instr 4 = some (cpu0, some (.UnknownSecondaryOpInstruction 4)) :=
  ⟨c8_unknown_opcode_faults.1 cpu0 0xFFFFFFFF (by decide),
   c8_unknown_opcode_faults.2 cpu0 4 (by decide) (by decide)⟩

/-! ### C9 -/

/-- Little-endian assembly of four bytes equals the positional sum. -/
lemma four_byte_assemble (b0 b1 b2 b3 : Nat) (h0 : b0 < 256) (h1 : b1 < 256)
    (h2 : b2 < 256) (h3 : b3 < 256) :
    b3 <<< 24 ||| b2 <<< 16 ||| b1 <<< 8 ||| b0 =
      b3 * 2 ^ 24 + b2 * 2 ^ 16 + b1 * 2 ^ 8 + b0 := by
  rw [Nat.shiftLeft_eq, Nat.shiftLeft_eq, Nat.shiftLeft_eq]
  rw [lor_eq_add_of_lt 24 (b3 * 2 ^ 24) (b2 * 2 ^ 16) (Nat.mul_mod_left _ _) (by omega)]
  rw [lor_eq_add_of_lt 16 (b3 * 2 ^ 24 + b2 * 2 ^ 16) (b1 * 2 ^ 8) (by omega) (by omega)]
  rw [lor_eq_add_of_lt 8 (b3 * 2 ^ 24 + b2 * 2 ^ 16 + b1 * 2 ^ 8) b0 (by omega) (by omega)]

/-- C9: for every offset with `offset+3` inside the boot-ROM buffer, the BIOS
device's `load32` assembles the word with `byte[offset]` as least significant
byte and `byte[offset+3]` as most significant (little-endian positional value). -/
theorem c9_bios_little_endian (b : Bios) (offset : Nat)
    (hin : offset + 3 < b.data.size)
    (h0 : b.data.byte offset < 256) (h1 : b.data.byte (offset + 1) < 256)
    (h2 : b.data.byte (offset + 2) < 256) (h3 : b.data.byte (offset + 3) < 256) :
    b.load32 offset =
      some (b.data.byte (offset + 3) * 2 ^ 24 + b.data.byte (offset + 2) * 2 ^ 16 +
            b.data.byte (offset + 1) * 2 ^ 8 + b.data.byte offset) := by
  have g0 : b.data.get? offset = some (b.data.byte offset) := by
    unfold ByteVec.get?; rw [if_pos (by omega)]
  have g1 : b.data.get? (offset + 1) = some (b.data.byte (offset + 1)) := by
    unfold ByteVec.get?; rw [if_pos (by omega)]
  have g2 : b.data.get? (offset + 2) = some (b.data.byte (offset + 2)) := by
    unfold ByteVec.get?; rw [if_pos (by omega)]
  have g3 : b.data.get? (offset + 3) = some (b.data.byte (offset + 3)) := by
    unfold ByteVec.get?; rw [if_pos (by omega)]
  unfold Bios.load32
  rw [g0, g1, g2, g3]
  dsimp only
  rw [four_byte_assemble _ _ _ _ h0 h1 h2 h3]

/-- BIOS image holding bytes 1, 2, 3, 4. -/
def bvSeq : ByteVec := { size := 4, byte := fun i => i + 1 }

/-- C9 witness: bytes 1,2,3,4 assemble to `0x04030201`. -/
theorem c9_bios_little_endian_witness :
    Bios.load32 { data := bvSeq } 0 = some 0x04030201 :=
  c9_bios_little_endian { data := bvSeq } 0 (by decide) (by decide) (by decide)
    (by decide) (by decide)

/-! ### C10 -/

/-- C10: in the initial device table, every `store32` that returns success
leaves the interconnect (the whole bus-visible machine state) unchanged, so a
stored value is never observable through any subsequent `load32`. -/
theorem c10_store_frame (ic ic' : Interconnect) (addr val : Nat)
    (h : ic.store32 addr val = some (ic', .ok ())) :
    ic' = ic ∧ ic'.load32 = ic.load32 := by
  have hic : ic' = ic := by
    unfold Interconnect.store32 at h
    dsimp only at h
    split_ifs at h <;> simp_all
  subst hic
  exact ⟨rfl, rfl⟩

/-- C10 witness: an acknowledged RAM_SIZE write succeeds and changes nothing. -/
theorem c10_store_frame_witness :
    icW.store32 0x1f801060 0 = some (icW, .ok ()) ∧ (icW = icW ∧ icW.load32 = icW.load32) :=
  ⟨rfl, c10_store_frame icW icW 0x1f801060 0 rfl⟩

/-! ### More shared helpers -/

@[simp] lemma push_history_get_register (cpu : Cpu) (w i : Nat) :
    (cpu.push_history w).get_register i = cpu.get_register i := rfl

@[simp] lemma push_history_pc (cpu : Cpu) (w : Nat) : (cpu.push_history w).pc = cpu.pc := rfl

@[simp] lemma push_history_registers (cpu : Cpu) (w : Nat) :
    (cpu.push_history w).registers = cpu.registers := rfl

@[simp] lemma set_register_pc (cpu : Cpu) (i v : Nat) : (cpu.set_register i v).pc = cpu.pc := rfl

/-- Reading back the register just written (for a non-zero index). -/
lemma get_register_set_register_self (cpu : Cpu) (i v : Nat)
    (hi : i < cpu.registers.length) (hne : i ≠ 0) :
    (cpu.set_register i v).get_register i = v := by
  show ((cpu.registers.set i v).set 0 0).getD i 0 = v
  rw [List.getD_eq_getElem?_getD, List.getElem?_set_ne (by omega),
      List.getElem?_set_self (by simpa using hi)]
  rfl

/-- Every 5-bit register field is below 32. -/
lemma five_bit_field_lt (x : Nat) : 31 &&& x < 32 :=
  lt_of_le_of_lt Nat.and_le_left (by norm_num)

/-- Any `execute_instr` outcome that is not an abort preserves the
register-0 and pc-alignment invariants and the register-file length. -/
lemma execute_instr_preserves (cpu : Cpu) (w : Nat)
    (h0 : cpu.get_register 0 = 0) (h4 : cpu.pc % 4 = 0) (hlen : cpu.registers.length = 32) :
    (cpu.execute_instr w).elim True
      (fun r => r.1.get_register 0 = 0 ∧ r.1.pc % 4 = 0 ∧ r.1.registers.length = 32) := by
  have hpos : 0 < cpu.registers.length := by omega
  cases hsop : Instruction.sop w with
  | none =>
    simp only [Cpu.execute_instr, hsop, Option.elim_some]
    exact ⟨h0, h4, hlen⟩
  | some op =>
    cases op with
    | Special =>
      cases hsec : Instruction.secondary_opcode w with
      | none =>
        simp only [Cpu.execute_instr, Cpu.execute_special_op_instr, hsop, hsec, Option.elim_some]
        exact ⟨h0, h4, hlen⟩
      | some s =>
        cases s with
        | ShiftLeftLogical =>
          simp only [Cpu.execute_instr, Cpu.execute_special_op_instr, hsop, hsec, Cpu.op_sll,
            Option.elim_some, push_history_get_register, push_history_pc, push_history_registers,
            set_register_pc]
          exact ⟨get_register_zero_set_register _ _ _ hpos, h4,
            by rw [set_register_length]; exact hlen⟩
        | Or =>
          simp only [Cpu.execute_instr, Cpu.execute_special_op_instr, hsop, hsec, Cpu.op_or,
            Option.elim_some, push_history_get_register, push_history_pc, push_history_registers,
            set_register_pc]
          exact ⟨get_register_zero_set_register _ _ _ hpos, h4,
            by rw [set_register_length]; exact hlen⟩
    | LoadUpperImmediate =>
      simp only [Cpu.execute_instr, hsop, Cpu.op_lui, Option.elim_some,
        push_history_get_register, push_history_pc, push_history_registers, set_register_pc]
      exact ⟨get_register_zero_set_register _ _ _ hpos, h4,
        by rw [set_register_length]; exact hlen⟩
    | OrImmediate =>
      simp only [Cpu.execute_instr, hsop, Cpu.op_ori, Option.elim_some,
        push_history_get_register, push_history_pc, push_history_registers, set_register_pc]
      exact ⟨get_register_zero_set_register _ _ _ hpos, h4,
        by rw [set_register_length]; exact hlen⟩
    | AddImmediateUnsignedWord =>
      simp only [Cpu.execute_instr, hsop, Cpu.op_addiu, Option.elim_some,
        push_history_get_register, push_history_pc, push_history_registers, set_register_pc]
      exact ⟨get_register_zero_set_register _ _ _ hpos, h4,
        by rw [set_register_length]; exact hlen⟩
    | StoreWord =>
      cases hst : cpu.interconnect.store32
          ((cpu.get_register (Instruction.base w) + Instruction.offset_sign_extended w) % 2 ^ 32)
          (cpu.get_register (Instruction.gpr_rt w)) with
      | none =>
        simp only [Cpu.execute_instr, hsop, Cpu.op_sw, Cpu.store32, hst]
        exact trivial
      | some r =>
        cases r with
        | mk ic' res =>
          cases res with
          | error e =>
            simp only [Cpu.execute_instr, hsop, Cpu.op_sw, Cpu.store32, hst]
            exact trivial
          | ok u =>
            simp only [Cpu.execute_instr, hsop, Cpu.op_sw, Cpu.store32, hst]
            exact ⟨h0, h4, hlen⟩
    | Jump =>
      simp only [Cpu.execute_instr, hsop, Cpu.op_jump, Option.elim_some,
        push_history_get_register, push_history_pc, push_history_registers]
      exact ⟨h0, jump_pc_mod_four _ _, hlen⟩

/-! ### C5 -/

/-- C5: in the initial CPU state register 0 reads as 0 and pc is 4-aligned, and
both invariants (together with the register-file length) are preserved by every
non-aborting `execute_instr` and `run_single_cycle` outcome, whether it returns
success or a typed fault. -/
theorem c5_invariants_hold :
    (∀ bv : ByteVec, (Cpu.new bv).get_register 0 = 0 ∧ (Cpu.new bv).pc % 4 = 0
      ∧ (Cpu.new bv).registers.length = 32)
    ∧ (∀ (cpu : Cpu) (w : Nat), cpu.get_register 0 = 0 → cpu.pc % 4 = 0 →
        cpu.registers.length = 32 →
        (cpu.execute_instr w).elim True
          (fun r => r.1.get_register 0 = 0 ∧ r.1.pc % 4 = 0 ∧ r.1.registers.length = 32))
    ∧ (∀ cpu : Cpu, cpu.get_register 0 = 0 → cpu.pc % 4 = 0 → cpu.registers.length = 32 →
        (cpu.run_single_cycle).elim True
          (fun r => r.1.get_register 0 = 0 ∧ r.1.pc % 4 = 0 ∧ r.1.registers.length = 32)) := by
  refine ⟨?_, execute_instr_preserves, ?_⟩
  · intro bv
    exact ⟨rfl, show (0xbfc00000 : Nat) % 4 = 0 by norm_num, rfl⟩
  · intro cpu h0 h4 hlen
    cases hload : cpu.load32 cpu.pc with
    | none => simp only [Cpu.run_single_cycle, hload, Option.elim_none]
    | some r =>
      cases r with
      | error e => simp only [Cpu.run_single_cycle, hload, Option.elim_none]
      | ok w =>
        simp only [Cpu.run_single_cycle, hload]
        exact execute_instr_preserves _ _ h0
          (show ((cpu.pc + 4) % 2 ^ 32) % 4 = 0 by omega) hlen

/-- C5 witness: the invariants hold initially and across a concrete step. -/
theorem c5_invariants_hold_witness :
    ((Cpu.new bv4).get_register 0 = 0 ∧ (Cpu.new bv4).pc % 4 = 0
      ∧ (Cpu.new bv4).registers.length = 32)
    ∧ ((Cpu.new bv4).run_single_cycle).elim True
        (fun r => r.1.get_register 0 = 0 ∧ r.1.pc % 4 = 0 ∧ r.1.registers.length = 32) :=
  ⟨c5_invariants_hold.1 bv4,
   c5_invariants_hold.2.2 (Cpu.new bv4) (by decide) (by decide) (by decide)⟩

/-! ### C7 -/

/-- C7: executing any word whose primary opcode is ADDIU returns success (no
fault, even on wraparound) and sets rt to `get(rs) + sign_extend(imm)` reduced
modulo 2^32 (a write to register 0 being discarded, as always). -/
theorem c7_addiu_wraps (cpu : Cpu) (w : Nat)
    (hlen : cpu.registers.length = 32) (hop : w >>> 26 = 9) :
    (cpu.execute_instr w).map
        (fun r => (r.2, r.1.get_register (Instruction.gpr_rt w))) =
      some (none,
        if Instruction.gpr_rt w = 0 then 0
        else (cpu.get_register (Instruction.gpr_rs w) +
              Instruction.immediate_sign_extended w) % 2 ^ 32) := by
  have hsop : Instruction.sop w = some .AddImmediateUnsignedWord := by
    unfold Instruction.sop
    rw [hop]
    rfl
  simp only [Cpu.execute_instr, hsop, Cpu.op_addiu, Option.map_some,
    push_history_get_register]
  by_cases hrt : Instruction.gpr_rt w = 0
  · rw [if_pos hrt, hrt]
    exact congrArg _ (congrArg _ (get_register_zero_set_register _ _ _ (by omega)))
  · rw [if_neg hrt]
    have hlt : Instruction.gpr_rt w < cpu.registers.length := by
      rw [hlen]; exact five_bit_field_lt _
    exact congrArg _ (congrArg _ (get_register_set_register_self _ _ _ hlt hrt))

/-- C7 witness: word `0x24640001` (ADDIU rs=3, rt=4, imm=1) with register 3
holding `0xFFFFFFFF` wraps register 4 to 0 with no fault. -/
theorem c7_addiu_wraps_witness :
    (cpuAdd.execute_instr 0x24640001).map
        (fun r => (r.2, r.1.get_register (Instruction.gpr_rt 0x24640001))) =
      some (none, 0) :=
  c7_addiu_wraps cpuAdd 0x24640001 (by decide) (by decide)

/-! ### Step-level helpers -/

/-- A successful fetch reduces `run_single_cycle` to executing the previously
queued instruction on the state with the new queued word and advanced pc. -/
lemma run_single_cycle_of_fetch (cpu : Cpu) (w : Nat)
    (hfetch : cpu.load32 cpu.pc = some (.ok w)) :
    cpu.run_single_cycle =
      ({ cpu with next_instruction := w, pc := (cpu.pc + 4) % 2 ^ 32 }).execute_instr
        cpu.next_instruction := by
  unfold Cpu.run_single_cycle
  rw [hfetch]

/-- Executing a J word runs `op_jump` and records the trace entry. -/
lemma execute_instr_jump (cpu : Cpu) (w : Nat) (hj : Instruction.sop w = some .Jump) :
    cpu.execute_instr w = some ((cpu.op_jump w).push_history w, none) := by
  unfold Cpu.execute_instr
  rw [hj]

/-- Executing any word that is neither a jump nor a store leaves the pc
unchanged and does not abort (faulting decodes included). -/
lemma execute_instr_pc_preserved (cpu : Cpu) (w : Nat)
    (hnj : Instruction.sop w ≠ some .Jump) (hns : Instruction.sop w ≠ some .StoreWord) :
    (cpu.execute_instr w).map (fun r => r.1.pc) = some cpu.pc := by
  cases hsop : Instruction.sop w with
  | none => simp [Cpu.execute_instr, hsop]
  | some op =>
    cases op with
    | Special =>
      cases hsec : Instruction.secondary_opcode w with
      | none => simp [Cpu.execute_instr, Cpu.execute_special_op_instr, hsop, hsec]
      | some s =>
        cases s <;>
          simp [Cpu.execute_instr, Cpu.execute_special_op_instr, hsop, hsec,
            Cpu.op_sll, Cpu.op_or]
    | LoadUpperImmediate => simp [Cpu.execute_instr, hsop, Cpu.op_lui]
    | OrImmediate => simp [Cpu.execute_instr, hsop, Cpu.op_ori]
    | AddImmediateUnsignedWord => simp [Cpu.execute_instr, hsop, Cpu.op_addiu]
    | StoreWord => exact absurd hsop hns
    | Jump => exact absurd hsop hnj

/-- A CPU state with the given BIOS image, register file, trace, pc and
queued instruction. -/
def cpuAt (bv : ByteVec) (regs hist : List Nat) (pcv nxt : Nat) : Cpu :=
  { pc := pcv, next_instruction := nxt, registers := regs,
    interconnect := { bios := { data := bv } }, instruction_history := hist }

/-! ### C3 -/

/-- C3 counterexample: at `pc = 0xbFFFFFFC` (queued instruction `J 0`, 4 MiB
BIOS so the fetch succeeds) the step completes faultlessly executing the J, yet
the new pc is `0xC0000000` — the mask read the incremented pc `0xC0000000` —
while the claimed formula over the starting pc gives `0xB0000000`. -/
theorem c3_jump_pc_counterexample :
    Instruction.sop cpuHighJ.next_instruction = some .Jump
    ∧ (cpuHighJ.run_single_cycle).map (fun r => (r.1.pc, r.2.isNone)) =
        some (0xC0000000, true)
    ∧ (0xC0000000 : Nat) ≠
        (cpuHighJ.pc &&& 0xF0000000) |||
          (Instruction.instr_index cpuHighJ.next_instruction <<< 2) :=
  ⟨rfl, rfl, by decide⟩

/-- C3 amended: for every executed J instruction (the fetch of the following
word having succeeded), the step completes with no fault and the new pc equals
`(((pc_before_increment + 4) mod 2^32) & 0xF0000000) | (jump_target_index << 2)`:
`op_jump` masks the already-incremented pc, not the pc at the start of the step. -/
theorem c3_jump_pc_amended (cpu : Cpu) (w : Nat)
    (hfetch : cpu.load32 cpu.pc = some (.ok w))
    (hj : Instruction.sop cpu.next_instruction = some .Jump) :
    (cpu.run_single_cycle).map (fun r => (r.1.pc, r.2.isNone)) =
      some ((0xF0000000 &&& ((cpu.pc + 4) % 2 ^ 32)) |||
            (Instruction.instr_index cpu.next_instruction <<< 2), true) := by
  rw [run_single_cycle_of_fetch _ _ hfetch]
  rw [execute_instr_jump _ _ hj]
  rfl

/-- C3 amended witness: a J with target index 0 executed from the reset vector
lands on `0xb0000000`. -/
theorem c3_jump_pc_amended_witness :
    (cpuJ.run_single_cycle).map (fun r => (r.1.pc, r.2.isNone)) = some (0xb0000000, true) :=
  c3_jump_pc_amended cpuJ 0 rfl rfl

/-! ### C4 -/

@[simp] lemma op_jump_pc (cpu : Cpu) (w : Nat) :
    (cpu.op_jump w).pc = (0xF0000000 &&& cpu.pc) ||| (Instruction.instr_index w <<< 2) := rfl

@[simp] lemma op_jump_next_instruction (cpu : Cpu) (w : Nat) :
    (cpu.op_jump w).next_instruction = cpu.next_instruction := rfl

@[simp] lemma op_jump_interconnect (cpu : Cpu) (w : Nat) :
    (cpu.op_jump w).interconnect = cpu.interconnect := rfl

@[simp] lemma push_history_next_instruction (cpu : Cpu) (w : Nat) :
    (cpu.push_history w).next_instruction = cpu.next_instruction := rfl

@[simp] lemma push_history_interconnect (cpu : Cpu) (w : Nat) :
    (cpu.push_history w).interconnect = cpu.interconnect := rfl

@[simp] lemma cpu_load32_eq (cpu : Cpu) (addr : Nat) :
    cpu.load32 addr = cpu.interconnect.load32 addr := rfl

/-- One step that executes a jump: the pc becomes the masked incremented pc
ORed with the shifted target index, with no fault. -/
lemma jump_step_pc (cpu : Cpu) (d : Nat)
    (hw : Instruction.sop cpu.next_instruction = some .Jump)
    (hd : cpu.load32 cpu.pc = some (.ok d)) :
    (cpu.run_single_cycle).map (fun r => (r.1.pc, r.2.isNone)) =
      some ((0xF0000000 &&& ((cpu.pc + 4) % 2 ^ 32)) |||
        (Instruction.instr_index cpu.next_instruction <<< 2), true) := by
  rw [run_single_cycle_of_fetch _ _ hd, execute_instr_jump _ _ hw]
  simp only [Option.map, op_jump_pc, push_history_pc, Option.isNone_none]

/-- The pc two steps after a step that executes a jump, when the delay-slot
instruction (fetched alongside the jump) is neither a jump nor a store and
both fetches succeed: target pc plus the unconditional advance. -/
lemma jump_then_step_pc (cpu : Cpu) (d d2 : Nat)
    (hw : Instruction.sop cpu.next_instruction = some .Jump)
    (hd : cpu.load32 cpu.pc = some (.ok d))
    (hd2 : cpu.load32 ((0xF0000000 &&& ((cpu.pc + 4) % 2 ^ 32)) |||
        (Instruction.instr_index cpu.next_instruction <<< 2)) = some (.ok d2))
    (hT4 : ((0xF0000000 &&& ((cpu.pc + 4) % 2 ^ 32)) |||
        (Instruction.instr_index cpu.next_instruction <<< 2)) + 4 < 2 ^ 32)
    (hnj : Instruction.sop d ≠ some .Jump)
    (hns : Instruction.sop d ≠ some .StoreWord) :
    ((cpu.run_single_cycle).bind (fun r => r.1.run_single_cycle)).map (fun r => r.1.pc) =
      some (((0xF0000000 &&& ((cpu.pc + 4) % 2 ^ 32)) |||
        (Instruction.instr_index cpu.next_instruction <<< 2)) + 4) := by
  rw [run_single_cycle_of_fetch _ _ hd, execute_instr_jump _ _ hw]
  simp only [Option.bind]
  have hd2' : ((({ cpu with next_instruction := d, pc := (cpu.pc + 4) % 2 ^ 32 } : Cpu).op_jump
        cpu.next_instruction).push_history cpu.next_instruction).load32
      ((({ cpu with next_instruction := d, pc := (cpu.pc + 4) % 2 ^ 32 } : Cpu).op_jump
        cpu.next_instruction).push_history cpu.next_instruction).pc = some (.ok d2) := by
    simp only [cpu_load32_eq, push_history_interconnect, op_jump_interconnect,
      push_history_pc, op_jump_pc]
    simpa only [cpu_load32_eq] using hd2
  rw [run_single_cycle_of_fetch _ _ hd2']
  simp only [push_history_next_instruction, op_jump_next_instruction]
  rw [execute_instr_pc_preserved _ _ hnj hns]
  simp only [push_history_pc, op_jump_pc]
  rw [Nat.mod_eq_of_lt hT4]

/-- C4 counterexample: `pc = 0xbfc00000` before a step whose executed
instruction is `J` with target index `0x3f00000` (target address `0xbfc00000`),
over the all-zero BIOS.  Both steps complete faultlessly, the delay-slot NOP
executes in the second step, and the pc observed two steps later is
`0xbfc00004`, not the claimed `0xb0000000 | (t << 2) = 0xbfc00000`. -/
theorem c4_two_step_pc_counterexample :
    cpuDelay.pc = 0xbfc00000
    ∧ Instruction.sop cpuDelay.next_instruction = some .Jump
    ∧ Instruction.instr_index cpuDelay.next_instruction = 0x3f00000
    ∧ ((cpuDelay.stepOk).bind Cpu.stepOk).map Cpu.pc = some 0xbfc00004
    ∧ (0xbfc00004 : Nat) ≠ 0xb0000000 ||| (0x3f00000 <<< 2) :=
  ⟨rfl, rfl, rfl, rfl, by decide⟩

/-- C4 amended: if `pc = 0xbfc00000` before a step and the instruction executed
in that step is a J with target index `t` (both fetches succeeding), then the
pc at the end of that step — the delay-slot instruction being fetched and
queued but not yet executed — equals `0xb0000000 | (t << 2)`; after the next
step, in which the delay-slot instruction executes (provided it is neither a
jump nor a store), the pc equals `(0xb0000000 | (t << 2)) + 4`. -/
theorem c4_jump_delay_slot_amended (bv : ByteVec) (regs hist : List Nat) (w d d2 : Nat)
    (hw : Instruction.sop w = some .Jump)
    (hd : (cpuAt bv regs hist 0xbfc00000 w).load32 0xbfc00000 = some (.ok d))
    (hd2 : (cpuAt bv regs hist 0xbfc00000 w).load32
        (0xb0000000 ||| (Instruction.instr_index w <<< 2)) = some (.ok d2))
    (hnj : Instruction.sop d ≠ some .Jump)
    (hns : Instruction.sop d ≠ some .StoreWord) :
    ((cpuAt bv regs hist 0xbfc00000 w).run_single_cycle).map (fun r => (r.1.pc, r.2.isNone)) =
        some (0xb0000000 ||| (Instruction.instr_index w <<< 2), true)
    ∧ (((cpuAt bv regs hist 0xbfc00000 w).run_single_cycle).bind
          (fun r => r.1.run_single_cycle)).map (fun r => r.1.pc) =
        some ((0xb0000000 ||| (Instruction.instr_index w <<< 2)) + 4) := by
  have hidx : Instruction.instr_index w ≤ 0x03FFFFFF := Nat.and_le_left
  have hX : Instruction.instr_index w <<< 2 < 2 ^ 28 := by
    rw [Nat.shiftLeft_eq]; omega
  have hT : (0xb0000000 : Nat) ||| (Instruction.instr_index w <<< 2)
      = 0xb0000000 + (Instruction.instr_index w <<< 2) :=
    lor_eq_add_of_lt 28 _ _ (by norm_num) hX
  have hpc : (cpuAt bv regs hist 0xbfc00000 w).pc = 0xbfc00000 := rfl
  have hnx : (cpuAt bv regs hist 0xbfc00000 w).next_instruction = w := rfl
  have hmask : (0xF0000000 : Nat) &&& ((0xbfc00000 + 4) % 2 ^ 32) = 0xb0000000 := rfl
  have hw' : Instruction.sop (cpuAt bv regs hist 0xbfc00000 w).next_instruction
      = some .Jump := by rw [hnx]; exact hw
  have hd' : (cpuAt bv regs hist 0xbfc00000 w).load32 (cpuAt bv regs hist 0xbfc00000 w).pc
      = some (.ok d) := by rw [hpc]; exact hd
  constructor
  · have h1 := jump_step_pc (cpuAt bv regs hist 0xbfc00000 w) d hw' hd'
    rw [hpc, hnx, hmask] at h1
    exact h1
  · have hd2' : (cpuAt bv regs hist 0xbfc00000 w).load32
        ((0xF0000000 &&& (((cpuAt bv regs hist 0xbfc00000 w).pc + 4) % 2 ^ 32)) |||
          (Instruction.instr_index (cpuAt bv regs hist 0xbfc00000 w).next_instruction <<< 2))
        = some (.ok d2) := by rw [hpc, hnx, hmask]; exact hd2
    have hT4 : ((0xF0000000 &&& (((cpuAt bv regs hist 0xbfc00000 w).pc + 4) % 2 ^ 32)) |||
        (Instruction.instr_index (cpuAt bv regs hist 0xbfc00000 w).next_instruction <<< 2))
          + 4 < 2 ^ 32 := by
      rw [hpc, hnx, hmask, hT]
      omega
    have h2 := jump_then_step_pc (cpuAt bv regs hist 0xbfc00000 w) d d2 hw' hd' hd2' hT4 hnj hns
    rw [hpc, hnx, hmask] at h2
    exact h2

/-- The initial register file: sentinel pattern with `$zero` fixed at 0. -/
def regsInit : List Nat := (List.replicate 32 0xdeadbeef).set 0 0

/-- C4 amended witness: `J 0x3f00000` executed from the reset vector over the
all-zero BIOS: pc is `0xbfc00000` after the jump step and `0xbfc00004` after
the delay-slot (NOP) step. -/
theorem c4_jump_delay_slot_amended_witness :
    ((cpuAt bv4 regsInit [] 0xbfc00000 0x0bf00000).run_single_cycle).map
        (fun r => (r.1.pc, r.2.isNone)) = some (0xbfc00000, true)
    ∧ (((cpuAt bv4 regsInit [] 0xbfc00000 0x0bf00000).run_single_cycle).bind
        (fun r => r.1.run_single_cycle)).map (fun r => r.1.pc) = some 0xbfc00004 :=
  c4_jump_delay_slot_amended bv4 regsInit [] 0x0bf00000 0 0 (by decide) rfl rfl
    (by decide) (by decide)

/-! ### C1 -/

/-- Whether a store comes back `Ok` (the Rust `.unwrap()` succeeding). -/
def Interconnect.store32_acknowledged (ic : Interconnect) (addr val : Nat) : Bool :=
  match ic.store32 addr val with
  | some (_, .ok _) => true
  | some (_, .error _) => false
  | none => false

/-- A step whose executed instruction is an SW whose store is not acknowledged
aborts (the `.unwrap()` / `todo!` panic), returning no state at all. -/
lemma run_single_cycle_sw_abort (cpu : Cpu) (w : Nat)
    (hfetch : cpu.load32 cpu.pc = some (.ok w))
    (hsw : Instruction.sop cpu.next_instruction = some .StoreWord)
    (hack : Interconnect.store32_acknowledged cpu.interconnect
        ((cpu.get_register (Instruction.base cpu.next_instruction) +
          Instruction.offset_sign_extended cpu.next_instruction) % 2 ^ 32)
        (cpu.get_register (Instruction.gpr_rt cpu.next_instruction)) = false) :
    cpu.run_single_cycle = none := by
  rw [run_single_cycle_of_fetch _ _ hfetch]
  unfold Cpu.execute_instr
  rw [hsw]
  dsimp only
  unfold Cpu.op_sw Cpu.store32
  unfold Interconnect.store32_acknowledged at hack
  simp only [Cpu.get_register] at hack ⊢
  cases hres : cpu.interconnect.store32
      ((cpu.registers.getD (Instruction.base cpu.next_instruction) 0 +
        Instruction.offset_sign_extended cpu.next_instruction) % 2 ^ 32)
      (cpu.registers.getD (Instruction.gpr_rt cpu.next_instruction) 0) with
  | none => rfl
  | some r =>
    obtain ⟨ic', res⟩ := r
    cases res with
    | ok u =>
      rw [hres] at hack
      simp at hack
    | error e => rfl

/-- C1 amended: a decode fault (unknown primary or unknown secondary opcode)
propagates to the `run_single_cycle` caller as the typed result, but a bus
fault surfaced while fetching the next instruction (error or out-of-bounds
abort) and a bus fault while executing an SW store terminate the step as an
uncontrolled abort (`expect` / `unwrap` / `todo!` panic), not a typed result. -/
theorem c1_fault_propagation_amended :
    (∀ (cpu : Cpu) (w : Nat), cpu.load32 cpu.pc = some (.ok w) →
      Instruction.sop cpu.next_instruction = none →
      (cpu.run_single_cycle).map (fun r => r.2) =
        some (some (.UnknownInstruction cpu.next_instruction)))
    ∧ (∀ (cpu : Cpu) (w : Nat), cpu.load32 cpu.pc = some (.ok w) →
        Instruction.sop cpu.next_instruction = some .Special →
        Instruction.secondary_opcode cpu.next_instruction = none →
        (cpu.run_single_cycle).map (fun r => r.2) =
          some (some (.UnknownSecondaryOpInstruction cpu.next_instruction)))
    ∧ (∀ (cpu : Cpu) (e : BusError), cpu.load32 cpu.pc = some (.error e) →
        cpu.run_single_cycle = none)
    ∧ (∀ cpu : Cpu, cpu.load32 cpu.pc = none → cpu.run_single_cycle = none)
    ∧ (∀ (cpu : Cpu) (w : Nat), cpu.load32 cpu.pc = some (.ok w) →
        Instruction.sop cpu.next_instruction = some .StoreWord →
        Interconnect.store32_acknowledged cpu.interconnect
          ((cpu.get_register (Instruction.base cpu.next_instruction) +
            Instruction.offset_sign_extended cpu.next_instruction) % 2 ^ 32)
          (cpu.get_register (Instruction.gpr_rt cpu.next_instruction)) = false →
        cpu.run_single_cycle = none) := by
  refine ⟨?_, ?_, ?_, ?_, fun cpu w hf hs ha => run_single_cycle_sw_abort cpu w hf hs ha⟩
  · intro cpu w hfetch hdec
    rw [run_single_cycle_of_fetch _ _ hfetch]
    unfold Cpu.execute_instr
    rw [hdec]
    rfl
  · intro cpu w hfetch hspec hsec
    rw [run_single_cycle_of_fetch _ _ hfetch]
    unfold Cpu.execute_instr
    rw [hspec]
    dsimp only
    unfold Cpu.execute_special_op_instr
    rw [hsec]
    rfl
  · intro cpu e hfetch
    unfold Cpu.run_single_cycle
    rw [hfetch]
  · intro cpu hfetch
    unfold Cpu.run_single_cycle
    rw [hfetch]

/-- CPU whose queued instruction has an unmapped primary opcode. -/
def cpuUnknown : Cpu := { Cpu.new bv4 with next_instruction := 0xFFFFFFFF }

/-- CPU whose queued instruction is Special with an unmapped secondary opcode. -/
def cpuSecUnknown : Cpu := { Cpu.new bv4 with next_instruction := 4 }

/-- CPU whose pc is unaligned, so the fetch returns a bus error. -/
def cpuUnalignedPc : Cpu := { Cpu.new bv4 with pc := 1 }

/-- CPU whose pc maps (through the wrapping offset) outside the BIOS buffer,
so the fetch aborts on out-of-bounds indexing. -/
def cpuOutOfRom : Cpu := { Cpu.new bv4 with pc := 0 }

/-- C1 counterexample: executing SW word `0xAC000001` (store to the unaligned
address 1) makes `run_single_cycle` abort — no typed result is returned, the
claim's no-abort guarantee fails. -/
theorem c1_step_aborts_on_sw_bus_fault :
    Instruction.sop cpuSW.next_instruction = some .StoreWord
    ∧ cpuSW.run_single_cycle = none :=
  ⟨rfl, rfl⟩

/-- C1 amended witness: concrete instances of all five behaviours. -/
theorem c1_fault_propagation_amended_witness :
    (cpuUnknown.run_single_cycle).map (fun r => r.2) =
        some (some (.UnknownInstruction 0xFFFFFFFF))
    ∧ (cpuSecUnknown.run_single_cycle).map (fun r => r.2) =
        some (some (.UnknownSecondaryOpInstruction 4))
    ∧ cpuUnalignedPc.run_single_cycle = none
    ∧ cpuOutOfRom.run_single_cycle = none
    ∧ cpuSW.run_single_cycle = none :=
  ⟨c1_fault_propagation_amended.1 cpuUnknown 0 rfl rfl,
   c1_fault_propagation_amended.2.1 cpuSecUnknown 0 rfl rfl rfl,
   c1_fault_propagation_amended.2.2.1 cpuUnalignedPc (.notAligned 1) rfl,
   c1_fault_propagation_amended.2.2.2.1 cpuOutOfRom rfl,
   c1_fault_propagation_amended.2.2.2.2 cpuSW 0 rfl rfl rfl⟩

/-! ### C2 -/

/-- C2 counterexample: address 0 is 4-aligned and claimed by no device mapping
(it is below every range's start), yet `load32` aborts (out-of-bounds BIOS
access through the always-true OR range check) instead of returning the
unmapped-address fault, and `store32` aborts (`todo!`) instead of returning a
fault result. -/
theorem c2_unmapped_access_aborts :
    (0 : Nat) % 4 = 0
    ∧ ¬(BIOS_ADDR_RANGE.starting_addr ≤ 0)
    ∧ ¬(MEM_CONTROL_ADDR_RANGE.starting_addr ≤ 0)
    ∧ ¬(RAM_SIZE_RANGE.starting_addr ≤ 0)
    ∧ ¬(CACHE_CONTROL_RANGE.starting_addr ≤ 0)
    ∧ icW.load32 0 = none
    ∧ icW.store32 0 0 = none :=
  ⟨rfl, by decide, by decide, by decide, by decide, rfl, rfl⟩

/-- C2 amended: on a 4-byte-aligned address `load32` never returns an error at
all — the OR-form containment check routes every aligned address to the
boot-ROM mapping, so the unmapped-address fault is unreachable and an address
outside the buffer aborts instead; `store32` on an aligned address claimed by
no writable/acknowledged mapping aborts (`todo!`) rather than returning a
fault. -/
theorem c2_unmapped_amended :
    (∀ (ic : Interconnect) (addr : Nat) (e : BusError), addr % 4 = 0 →
      ic.load32 addr ≠ some (.error e))
    ∧ (∀ (ic : Interconnect) (addr val : Nat), addr % 4 = 0 →
        ¬(MEM_CONTROL_ADDR_RANGE.starting_addr ≤ addr ∧
            addr < MEM_CONTROL_ADDR_RANGE.last_addr) →
        ¬(RAM_SIZE_RANGE.starting_addr ≤ addr ∧ addr < RAM_SIZE_RANGE.last_addr) →
        ¬(CACHE_CONTROL_RANGE.starting_addr ≤ addr ∧ addr < CACHE_CONTROL_RANGE.last_addr) →
        ic.store32 addr val = none) := by
  constructor
  · intro ic addr e h4
    have hs : BIOS_ADDR_RANGE.starting_addr = 0xbfc00000 := rfl
    have hl : BIOS_ADDR_RANGE.last_addr = 0xbfc00000 + 512 * 1024 := rfl
    unfold Interconnect.load32
    rw [if_neg (by omega : ¬addr % 4 ≠ 0)]
    rw [if_pos (by rw [hs, hl]; omega :
      BIOS_ADDR_RANGE.starting_addr ≤ addr ∨ addr < BIOS_ADDR_RANGE.last_addr)]
    cases hb : ic.bios.load32 ((addr + 2 ^ 32 - BIOS_ADDR_RANGE.starting_addr) % 2 ^ 32) with
    | none => simp
    | some v => simp
  · intro ic addr val h4 hm hr hc
    unfold Interconnect.store32
    rw [if_neg (by omega : ¬addr % 4 ≠ 0), if_neg hm, if_neg hr, if_neg hc]

/-- C2 amended witness: the aligned unmapped address 0 — `load32` does not
return the unmapped fault, `store32` aborts. -/
theorem c2_unmapped_amended_witness :
    icW.load32 0 ≠ some (.error (.notInRange 0))
    ∧ icW.store32 0 0 = none :=
  ⟨c2_unmapped_amended.1 icW 0 (.notInRange 0) rfl,
   c2_unmapped_amended.2 icW 0 0 rfl (by decide) (by decide) (by decide)⟩
